import Mathlib

/-!
Shallow embedding of the strava-dash OAuth flow (src/auth.py), the activity
fetcher (src/API.py) and the pieces of src/app.py the claims mention, with
theorems settling the frozen claims about them.

Collaborator calls (the stravalib client token endpoints and activity/stream
endpoints, the urllib query-string parser) are passed in as function
parameters; a raised exception in such a call is an `Except.error` value.
The Flask session is an explicit record threaded through each operation.
-/

namespace StravaDash

/-- Python truthiness of an optional string value, as used by the source in
`if error:`, `if not received_state`, `if not code` and
`not session.get("refresh_token")`: None and the empty string are falsy. -/
def truthy : Option String → Bool
  | none => false
  | some s => s ≠ ""

/-- The per-user Flask session keys the app reads and writes
(src/auth.py, src/app.py). A `none` field is a key absent from the session. -/
structure Session where
  oauth_state : Option String
  access_token : Option String
  refresh_token : Option String
  expires_at : Option Int
  deriving DecidableEq

/-- Parsed OAuth callback query parameters: the first value of each key, as
`parse_qs(search.lstrip("?")).get(k, [None])[0]` yields (src/auth.py:39-47). -/
structure QueryParams where
  error : Option String
  code : Option String
  state : Option String
  deriving DecidableEq

/-- JSON body returned by the provider token-exchange and token-refresh
endpoints (spec section 6): access_token, refresh_token, expires_at. -/
structure TokenResponse where
  access_token : String
  refresh_token : String
  expires_at : Int
  deriving DecidableEq

/-- An authenticated stravalib Client handle: a Client object whose
access_token attribute has been set (src/auth.py:67, 105-106). -/
structure Client where
  access_token : Option String
  deriving DecidableEq

/-- StravaAuth.handle_oauth_callback (src/auth.py:37-72). `exchange` models
`client.exchange_code_for_token`; an `Except.error` is a raised exception,
caught by the `except` block which returns `(None, str(e))`. The result is
the returned pair `(client, error)` together with the session after the call.
Note the source never deletes `oauth_state` from the session. -/
def handle_oauth_callback (exchange : String → Except String TokenResponse)
    (s : Session) (q : QueryParams) :
    Option Client × Option String × Session :=
  if truthy q.error = true then
    (none, q.error, s)
  else if truthy q.state = false ∨ q.state ≠ s.oauth_state then
    (none, some "Invalid state parameter", s)
  else if truthy q.code = false then
    (none, some "No authorization code received", s)
  else
    match exchange (q.code.getD "") with
    | .ok tr =>
        (some { access_token := some tr.access_token }, none,
         { s with access_token := some tr.access_token,
                  refresh_token := some tr.refresh_token,
                  expires_at := some tr.expires_at })
    | .error e => (none, some e, s)

/-- Result of StravaAuth.refresh_token_if_needed: the returned boolean, the
session after the call, and how many network calls (refresh-endpoint hits)
were made during the call. -/
structure RefreshResult where
  authed : Bool
  session : Session
  networkCalls : Nat
  deriving DecidableEq

/-- StravaAuth.refresh_token_if_needed (src/auth.py:74-95), identical to the
module-level copy in src/app.py:115-135. `refresh` models
`client.refresh_access_token`; an `Except.error` is a raised exception,
caught and logged, with the function returning False. The expiry test in the
source is the strict comparison `int(session["expires_at"]) < time.time()`. -/
def refresh_token_if_needed (refresh : String → Except String TokenResponse)
    (now : Int) (s : Session) : RefreshResult :=
  if s.expires_at = none ∨ truthy s.refresh_token = false then
    ⟨false, s, 0⟩
  else if s.expires_at.getD 0 < now then
    match refresh (s.refresh_token.getD "") with
    | .ok r =>
        ⟨true, { s with access_token := some r.access_token,
                        refresh_token := some r.refresh_token,
                        expires_at := some r.expires_at }, 1⟩
    | .error _ => ⟨false, s, 1⟩
  else
    ⟨true, s, 0⟩

/-- StravaAuth.get_client (src/auth.py:97-107): returns None when no
access_token key is in the session, else defers to refresh_token_if_needed
and on success returns a Client carrying the (possibly refreshed) session
access token. The session and network-call count after the call are the
second and third components. -/
def get_client (refresh : String → Except String TokenResponse)
    (now : Int) (s : Session) : Option Client × Session × Nat :=
  if s.access_token = none then
    (none, s, 0)
  else
    let r := refresh_token_if_needed refresh now s
    if r.authed = true then
      (some { access_token := r.session.access_token }, r.session, r.networkCalls)
    else
      (none, r.session, r.networkCalls)

/-- One stravalib activity object as observed by
StravaAPI.get_activities_data (src/API.py:33-52). The required model fields
that the source reads directly are total; each optional numeric attribute is
`none` when the attribute lookup raises (caught by the bare `except`),
`some none` when the attribute value is None, and `some (some v)` when the
value renders via `str` to `v`. -/
structure Activity where
  id : Nat
  name : String
  type : String
  start_date : String
  kudos_count : Nat
  distance : String
  moving_time : String
  elapsed_time : String
  total_elevation_gain : String
  average_speed : String
  max_speed : Option (Option String)
  average_watts : Option (Option String)
  max_watts : Option (Option String)
  average_heartrate : Option (Option String)
  max_heartrate : Option (Option String)
  deriving DecidableEq

/-- The per-attribute fallback of src/API.py:47-52:
`str(val) if val is not None else "N/A"`, with the bare `except` also
yielding the literal sentinel `"N/A"` on a failed lookup. -/
def optAttr : Option (Option String) → String
  | none => "N/A"
  | some none => "N/A"
  | some (some v) => v

/-- One row appended to `activities_data` (src/API.py:33-54). -/
structure ActivityRecord where
  id : Nat
  name : String
  type : String
  start_date : String
  kudos : Nat
  distance : String
  moving_time : String
  elapsed_time : String
  total_elevation_gain : String
  average_speed : String
  max_speed : String
  average_watts : String
  max_watts : String
  average_heartrate : String
  max_heartrate : String
  deriving DecidableEq

/-- Build one row from one activity (src/API.py:33-52). -/
def mkRecord (a : Activity) : ActivityRecord where
  id := a.id
  name := a.name
  type := a.type
  start_date := a.start_date
  kudos := a.kudos_count
  distance := a.distance
  moving_time := a.moving_time
  elapsed_time := a.elapsed_time
  total_elevation_gain := a.total_elevation_gain
  average_speed := a.average_speed
  max_speed := optAttr a.max_speed
  average_watts := optAttr a.average_watts
  max_watts := optAttr a.max_watts
  average_heartrate := optAttr a.average_heartrate
  max_heartrate := optAttr a.max_heartrate

/-- The fetch loop of src/API.py:32-57: append a row per activity, breaking
once the appended count reaches `limit`; `n` is the count appended so far. -/
def processActivities (limit : Nat) : List Activity → Nat → List ActivityRecord
  | [], _ => []
  | a :: rest, n =>
      mkRecord a :: (if limit ≤ n + 1 then [] else processActivities limit rest (n + 1))

/-- StravaAPI.get_activities_data (src/API.py:13-64). `fetched` is the
outcome of the `client.get_activities` iterator: an `Except.error` is a
raised exception, caught by the outer try which logs and returns None. -/
def get_activities_data (fetched : Except String (List Activity)) (limit : Nat) :
    Option (List ActivityRecord) :=
  match fetched with
  | .error _ => none
  | .ok acts => some (processActivities limit acts 0)

/-- Outcome of `client.get_activity_streams` for one activity id
(src/API.py:71-75): the call can raise, return a falsy result (None, or an
empty mapping, both failing `if not streams`), or return a mapping from
channel name to raw data whose per-channel `.data` access and float
conversion (src/API.py:83-85) can itself raise. -/
inductive StreamsFetch where
  | raised (e : String)
  | absent
  | ok (channels : List (String × Except String (List Int)))

/-- The per-channel inner try of src/API.py:82-87: a channel whose data
conversion raises is logged and omitted from the result. -/
def keepParsed (c : String × Except String (List Int)) : Option (String × List Int) :=
  match c.2 with
  | .ok d => some (c.1, d)
  | .error _ => none

/-- The body of StravaAPI.get_activity_streams (src/API.py:68-93), before
the lru_cache wrapper: None on a raised fetch or a falsy streams object,
else the mapping restricted to the channels that parsed. -/
def get_activity_streams_uncached (net : Nat → StreamsFetch) (activity_id : Nat) :
    Option (List (String × List Int)) :=
  match net activity_id with
  | .raised _ => none
  | .absent => none
  | .ok [] => none
  | .ok channels => some (channels.filterMap keepParsed)

/-- State of the functools.lru_cache(maxsize=100) wrapper on
get_activity_streams (src/API.py:66-68). The key is the full argument tuple
(client object, activity_id); entries are kept most-recently-used first. -/
structure LruCache where
  entries : List ((Nat × Nat) × Option (List (String × List Int)))
  deriving DecidableEq

/-- The cache capacity: lru_cache maxsize=100 (src/API.py:67). -/
def maxsize : Nat := 100

/-- Cache lookup by exact key. -/
def lruLookup (c : LruCache) (k : Nat × Nat) :
    Option (Option (List (String × List Int))) :=
  (c.entries.find? (fun e => e.1 = k)).map (fun e => e.2)

/-- Result of one call to the cached get_activity_streams: the returned
value, the cache state after the call, and how many network (stream
endpoint) calls were made. -/
structure StreamsCall where
  result : Option (List (String × List Int))
  cache : LruCache
  networkCalls : Nat

/-- StravaAPI.get_activity_streams as wrapped by @lru_cache(maxsize=100)
(src/API.py:66-93). `client` is the identity of the Client object passed in:
the cache key is the pair (client, activity_id), not the activity id alone.
On a hit the entry is refreshed to most-recently-used and no network call is
made; on a miss the body runs once and its result (a None result included)
is inserted, evicting the least-recently-used entry beyond capacity. -/
def get_activity_streams (net : Nat → StreamsFetch) (cache : LruCache)
    (client : Nat) (activity_id : Nat) : StreamsCall :=
  match lruLookup cache (client, activity_id) with
  | some v =>
      ⟨v, ⟨((client, activity_id), v) ::
            cache.entries.filter (fun e => ¬ e.1 = (client, activity_id))⟩, 0⟩
  | none =>
      ⟨get_activity_streams_uncached net activity_id,
       ⟨(((client, activity_id), get_activity_streams_uncached net activity_id) ::
           cache.entries.filter (fun e => ¬ e.1 = (client, activity_id))).take maxsize⟩,
       1⟩

/-! ## Concrete fixtures used by counterexamples and witnesses -/

/-- A token exchange or refresh call that always raises. -/
def exFail : String → Except String TokenResponse := fun _ => .error "no network"

/-- A token exchange that accepts exactly the authorization code "c". -/
def exOk : String → Except String TokenResponse :=
  fun c => if c = "c" then .ok ⟨"AT", "RT", 100⟩ else .error "bad code"

/-- A refresh call that always succeeds with fresh tokens. -/
def refreshOk : String → Except String TokenResponse :=
  fun _ => .ok ⟨"AT2", "RT2", 200⟩

/-- A refresh call that always raises. -/
def refreshFail : String → Except String TokenResponse := fun _ => .error "boom"

/-- A session right after the login page stored oauth_state = "S". -/
def sLogin : Session := ⟨some "S", none, none, none⟩

/-- A fully authenticated session with expiry at 100. -/
def sTok : Session := ⟨none, some "AT", some "RT", some 100⟩

/-- A session with a refresh token and expiry but no access token. -/
def sRefreshOnly : Session := ⟨none, none, some "RT", some 100⟩

/-- A session with an access token and expiry but no refresh token. -/
def sNoRt : Session := ⟨none, some "AT", none, some 100⟩

/-- A callback query carrying both a provider error and a mismatched state. -/
def qErrBadState : QueryParams := ⟨some "access_denied", some "c", some "WRONG"⟩

/-- A callback query with matching state "S" and valid code "c". -/
def qGood : QueryParams := ⟨none, some "c", some "S"⟩

/-! ## Claims about handle_oauth_callback -/

/-- Claim C1 counterexample: a callback whose state parameter does not equal
the stored oauth_state but which also carries a provider error parameter
returns the ProviderDenied error string, not the CsrfMismatch message, so
the claim as stated fails on that input. -/
theorem C1_counterexample :
    handle_oauth_callback exFail sLogin qErrBadState =
      (none, some "access_denied", sLogin) ∧
    (some "access_denied" : Option String) ≠ some "Invalid state parameter" ∧
    truthy qErrBadState.state = true ∧
    qErrBadState.state ≠ sLogin.oauth_state := by
  refine ⟨by decide, by decide, by decide, by decide⟩

/-- Claim C1 (amended): for every callback invocation without a non-empty
provider error parameter whose state is missing or does not exactly equal
the stored oauth_state, handle_oauth_callback returns the CsrfMismatch
error, no client handle, and an unchanged session (no token is written);
moreover for every invocation with such a bad state, error parameter
present or not, no client handle is returned and the session is unchanged. -/
theorem C1_csrf_mismatch_rejected :
    (∀ (ex : String → Except String TokenResponse) (s : Session) (q : QueryParams),
        truthy q.error = false →
        truthy q.state = false ∨ q.state ≠ s.oauth_state →
        handle_oauth_callback ex s q = (none, some "Invalid state parameter", s)) ∧
    (∀ (ex : String → Except String TokenResponse) (s : Session) (q : QueryParams),
        truthy q.state = false ∨ q.state ≠ s.oauth_state →
        (handle_oauth_callback ex s q).1 = none ∧
        (handle_oauth_callback ex s q).2.2 = s) := by
  constructor
  · intro ex s q herr hst
    simp only [handle_oauth_callback]
    rw [if_neg (by simp [herr]), if_pos hst]
  · intro ex s q hst
    by_cases herr : truthy q.error = true
    · simp only [handle_oauth_callback]
      rw [if_pos herr]
      exact ⟨rfl, rfl⟩
    · simp only [handle_oauth_callback]
      rw [if_neg herr, if_pos hst]
      exact ⟨rfl, rfl⟩

/-- Claim C1 witness: the amended theorem applied at a concrete mismatching
callback. -/
theorem C1_csrf_mismatch_rejected_witness :
    handle_oauth_callback exFail sLogin ⟨none, some "c", some "WRONG"⟩ =
      (none, some "Invalid state parameter", sLogin) :=
  C1_csrf_mismatch_rejected.1 exFail sLogin ⟨none, some "c", some "WRONG"⟩
    (by decide) (Or.inr (by decide))

/-- Claim C2: for every callback invocation whose query carries a non-empty
(truthy) provider error parameter, handle_oauth_callback returns None
together with exactly that error string and an unchanged session, before
any state or code check is consulted. -/
theorem C2_provider_error_first :
    ∀ (ex : String → Except String TokenResponse) (s : Session) (q : QueryParams),
      truthy q.error = true →
      handle_oauth_callback ex s q = (none, q.error, s) := by
  intro ex s q h
  simp only [handle_oauth_callback]
  rw [if_pos h]

/-- Claim C2 witness: the theorem applied at a concrete callback carrying a
provider error along with a mismatched state and a code. -/
theorem C2_provider_error_first_witness :
    handle_oauth_callback exFail sLogin qErrBadState =
      (none, some "access_denied", sLogin) :=
  C2_provider_error_first exFail sLogin qErrBadState (by decide)

/-- Claim C3 counterexample: a fully successful callback leaves oauth_state
untouched in the session (it is never cleared), and replaying the exact
same callback against the resulting session succeeds a second time. -/
theorem C3_counterexample :
    (handle_oauth_callback exOk sLogin qGood).1 ≠ none ∧
    (handle_oauth_callback exOk sLogin qGood).2.2.oauth_state = some "S" ∧
    (handle_oauth_callback exOk
        ((handle_oauth_callback exOk sLogin qGood).2.2) qGood).1 ≠ none := by
  refine ⟨by decide, by decide, by decide⟩

/-- Claim C3 (amended): for every callback invocation passing the error,
state and code checks whose token exchange succeeds, handle_oauth_callback
stores access_token, refresh_token and expires_at from the token response
into the session and returns an authenticated client handle with no error;
the stored oauth_state is left unchanged (it is not cleared), so the state
token is not single use and a replay of the same callback succeeds again. -/
theorem C3_success_stores_tokens :
    ∀ (ex : String → Except String TokenResponse) (s : Session) (q : QueryParams)
      (tr : TokenResponse),
      truthy q.error = false →
      truthy q.state = true →
      q.state = s.oauth_state →
      truthy q.code = true →
      ex (q.code.getD "") = .ok tr →
      handle_oauth_callback ex s q =
        (some { access_token := some tr.access_token }, none,
         { s with access_token := some tr.access_token,
                  refresh_token := some tr.refresh_token,
                  expires_at := some tr.expires_at }) := by
  intro ex s q tr herr hst heq hcode hex
  simp only [handle_oauth_callback]
  rw [if_neg (by simp [herr]), if_neg (by simp [hst, ← heq]),
    if_neg (by simp [hcode]), hex]

/-- Claim C3 witness: the amended theorem applied at a concrete successful
callback. -/
theorem C3_success_stores_tokens_witness :
    handle_oauth_callback exOk sLogin qGood =
      (some { access_token := some "AT" }, none,
       { sLogin with access_token := some "AT",
                     refresh_token := some "RT",
                     expires_at := some 100 }) :=
  C3_success_stores_tokens exOk sLogin qGood ⟨"AT", "RT", 100⟩
    (by decide) (by decide) (by decide) (by decide) rfl

/-- Every exit of the callback either leaves the session unchanged or
returned a client handle. -/
theorem callback_session_cases (ex : String → Except String TokenResponse)
    (s : Session) (q : QueryParams) :
    (handle_oauth_callback ex s q).2.2 = s ∨
      (handle_oauth_callback ex s q).1 ≠ none := by
  simp only [handle_oauth_callback]
  split
  · exact Or.inl rfl
  · split
    · exact Or.inl rfl
    · split
      · exact Or.inl rfl
      · split
        · exact Or.inr (by simp)
        · exact Or.inl rfl

/-- Claim C10: error atomicity of the callback: every invocation of
handle_oauth_callback that returns no client handle (provider error, state
mismatch, missing code, or a failed token exchange) leaves the whole
session — oauth_state, access_token, refresh_token and expires_at — exactly
as it was at entry. -/
theorem C10_failure_atomicity :
    ∀ (ex : String → Except String TokenResponse) (s : Session) (q : QueryParams),
      (handle_oauth_callback ex s q).1 = none →
      (handle_oauth_callback ex s q).2.2 = s := by
  intro ex s q h
  rcases callback_session_cases ex s q with hc | hc
  · exact hc
  · exact absurd h hc

/-- Claim C10 witness: the theorem applied at a concrete failing token
exchange. -/
theorem C10_failure_atomicity_witness :
    (handle_oauth_callback exFail sLogin qGood).1 = none ∧
    (handle_oauth_callback exFail sLogin qGood).2.2 = sLogin :=
  ⟨by decide, C10_failure_atomicity exFail sLogin qGood (by decide)⟩

/-! ## Claims about refresh_token_if_needed and get_client -/

/-- Claim C4 counterexample: with expires_at exactly equal to the current
time and a refresh call that would succeed, refresh_token_if_needed makes
no network call and overwrites nothing, because the source uses the strict
comparison expires_at < now; the claim says a refresh attempt is made at
equality. -/
theorem C4_counterexample :
    refresh_token_if_needed refreshOk 100 sTok = ⟨true, sTok, 0⟩ ∧
    sTok.expires_at = some 100 ∧
    (refresh_token_if_needed refreshOk 100 sTok).networkCalls = 0 ∧
    (refresh_token_if_needed refreshOk 100 sTok).session.access_token = some "AT" := by
  refine ⟨by decide, by decide, by decide, by decide⟩

/-- Claim C4 (amended): for every session with a truthy refresh_token and a
recorded expires_at strictly below the current time, refresh_token_if_needed
makes one call to the refresh endpoint, and when that call succeeds it
overwrites access_token, refresh_token and expires_at with the response
values and returns the authenticated result; at expires_at equal to the
current time no refresh is attempted. -/
theorem C4_refresh_on_strictly_expired :
    ∀ (refresh : String → Except String TokenResponse) (now : Int) (s : Session)
      (exp : Int) (r : TokenResponse),
      s.expires_at = some exp →
      truthy s.refresh_token = true →
      exp < now →
      refresh (s.refresh_token.getD "") = .ok r →
      refresh_token_if_needed refresh now s =
        ⟨true, { s with access_token := some r.access_token,
                        refresh_token := some r.refresh_token,
                        expires_at := some r.expires_at }, 1⟩ := by
  intro refresh now s exp r hexp hrt hlt hr
  simp only [refresh_token_if_needed]
  rw [if_neg (by simp [hexp, hrt]), if_pos (by simpa [hexp] using hlt), hr]

/-- Claim C4 witness: the amended theorem applied at a concrete expired
session with a succeeding refresh call. -/
theorem C4_refresh_on_strictly_expired_witness :
    refresh_token_if_needed refreshOk 150 sTok =
      ⟨true, { sTok with access_token := some "AT2",
                         refresh_token := some "RT2",
                         expires_at := some 200 }, 1⟩ :=
  C4_refresh_on_strictly_expired refreshOk 150 sTok 100 ⟨"AT2", "RT2", 200⟩
    (by decide) (by decide) (by decide) rfl

/-- Claim C5 counterexample: a session whose expires_at (100) is strictly
greater than the current time (0) but which has no refresh_token recorded
makes refresh_token_if_needed return the not-authenticated result, not the
authenticated one the claim requires for every non-expired session. -/
theorem C5_counterexample :
    refresh_token_if_needed refreshOk 0 sNoRt = ⟨false, sNoRt, 0⟩ ∧
    sNoRt.expires_at = some 100 ∧ ((0 : Int) < 100) := by
  refine ⟨by decide, by decide, by decide⟩

/-- Claim C5 (amended): for every session with a truthy refresh_token and a
recorded expires_at strictly greater than the current time,
refresh_token_if_needed returns the authenticated result with the session
unchanged and no network call; hence it is idempotent: calling it again
immediately on the resulting session again returns the same result with no
network call. -/
theorem C5_fresh_token_noop_idempotent :
    ∀ (refresh : String → Except String TokenResponse) (now : Int) (s : Session)
      (exp : Int),
      s.expires_at = some exp →
      truthy s.refresh_token = true →
      now < exp →
      refresh_token_if_needed refresh now s = ⟨true, s, 0⟩ ∧
      refresh_token_if_needed refresh now
        (refresh_token_if_needed refresh now s).session = ⟨true, s, 0⟩ := by
  intro refresh now s exp hexp hrt hlt
  have h1 : refresh_token_if_needed refresh now s = ⟨true, s, 0⟩ := by
    simp only [refresh_token_if_needed]
    rw [if_neg (by simp [hexp, hrt]), if_neg (by simp [hexp]; omega)]
  have h2 : (refresh_token_if_needed refresh now s).session = s := by rw [h1]
  refine ⟨h1, ?_⟩
  rw [h2, h1]

/-- Claim C5 witness: the amended theorem applied at a concrete fresh
session. -/
theorem C5_fresh_token_noop_idempotent_witness :
    refresh_token_if_needed refreshOk 50 sTok = ⟨true, sTok, 0⟩ ∧
    refresh_token_if_needed refreshOk 50
      (refresh_token_if_needed refreshOk 50 sTok).session = ⟨true, sTok, 0⟩ :=
  C5_fresh_token_noop_idempotent refreshOk 50 sTok 100
    (by decide) (by decide) (by decide)

/-- Claim C6 counterexample: when the refresh call raises, the function
returns the soft not-authenticated signal but the stale token fields
(access_token "AT", refresh_token "RT") remain recorded in the session; the
claim says partial session state is discarded after the failure. -/
theorem C6_counterexample :
    refresh_token_if_needed refreshFail 200 sTok = ⟨false, sTok, 1⟩ ∧
    (refresh_token_if_needed refreshFail 200 sTok).session.refresh_token = some "RT" ∧
    (refresh_token_if_needed refreshFail 200 sTok).session.access_token = some "AT" := by
  refine ⟨by decide, by decide, by decide⟩

/-- Claim C6 (amended): refresh_token_if_needed never raises: with no
recorded expires_at or no truthy refresh_token it returns the
not-authenticated signal with the session untouched and no network call,
and when the refresh call itself raises it catches the exception and
returns the not-authenticated signal with the session left entirely
unchanged — the stale token fields remain recorded, nothing is discarded. -/
theorem C6_soft_failure_session_unchanged :
    (∀ (refresh : String → Except String TokenResponse) (now : Int) (s : Session),
        s.expires_at = none ∨ truthy s.refresh_token = false →
        refresh_token_if_needed refresh now s = ⟨false, s, 0⟩) ∧
    (∀ (refresh : String → Except String TokenResponse) (now : Int) (s : Session)
        (exp : Int) (e : String),
        s.expires_at = some exp →
        truthy s.refresh_token = true →
        exp < now →
        refresh (s.refresh_token.getD "") = .error e →
        refresh_token_if_needed refresh now s = ⟨false, s, 1⟩) := by
  constructor
  · intro refresh now s h
    simp only [refresh_token_if_needed]
    rw [if_pos h]
  · intro refresh now s exp e hexp hrt hlt hr
    simp only [refresh_token_if_needed]
    rw [if_neg (by simp [hexp, hrt]), if_pos (by simpa [hexp] using hlt), hr]

/-- Claim C6 witness: the amended theorem applied at a session with no
refresh token and at an expired session with a raising refresh call. -/
theorem C6_soft_failure_session_unchanged_witness :
    refresh_token_if_needed refreshOk 0 sNoRt = ⟨false, sNoRt, 0⟩ ∧
    refresh_token_if_needed refreshFail 200 sTok = ⟨false, sTok, 1⟩ :=
  ⟨C6_soft_failure_session_unchanged.1 refreshOk 0 sNoRt (Or.inr (by decide)),
   C6_soft_failure_session_unchanged.2 refreshFail 200 sTok 100 "boom"
     (by decide) (by decide) (by decide) rfl⟩

/-- Claim C9 counterexample: a session with a valid refresh_token and a
future expires_at but no access_token key makes refresh_token_if_needed
return the authenticated result while get_client returns none, refuting the
claimed equivalence. -/
theorem C9_counterexample :
    refresh_token_if_needed refreshOk 0 sRefreshOnly = ⟨true, sRefreshOnly, 0⟩ ∧
    (get_client refreshOk 0 sRefreshOnly).1 = none := by
  refine ⟨by decide, by decide⟩

/-- Claim C9 (amended): get_client returns an authenticated client handle
if and only if the session has an access_token key recorded and
refresh_token_if_needed returns the authenticated result; its session and
network effects never exceed those of refresh_token_if_needed (when the
access_token key is absent it short-circuits with no effects at all). -/
theorem C9_get_client_characterization :
    ∀ (refresh : String → Except String TokenResponse) (now : Int) (s : Session),
      ((get_client refresh now s).1.isSome =
        (s.access_token.isSome && (refresh_token_if_needed refresh now s).authed)) ∧
      ((get_client refresh now s).2.1 = s ∨
        (get_client refresh now s).2.1 = (refresh_token_if_needed refresh now s).session) ∧
      (get_client refresh now s).2.2 ≤ (refresh_token_if_needed refresh now s).networkCalls := by
  intro refresh now s
  by_cases h : s.access_token = none
  · simp [get_client, h]
  · by_cases ha : (refresh_token_if_needed refresh now s).authed = true
    · simp [get_client, h, ha, Option.isSome_iff_ne_none]
    · simp [get_client, h, ha, Option.isSome_iff_ne_none, Bool.not_eq_true] at ha ⊢

/-! ## Claims about the activity fetcher and the stream cache -/

/-- An activity whose average_watts attribute lookup raises and whose
average_heartrate is None. -/
def aNoWatts : Activity :=
  ⟨1, "Morning Ride", "Ride", "2024-01-01", 3, "1000.0", "600", "700",
   "10.0", "5.0", some (some "12.0"), none, none, some none, some (some "150")⟩

/-- A stream endpoint that answers every activity id with one parsed
channel. -/
def netConst : Nat → StreamsFetch := fun _ => .ok [("time", .ok [0, 1])]

/-- A stream endpoint that raises on every activity id, as for an unknown
activity. -/
def netRaise : Nat → StreamsFetch := fun _ => .raised "404 not found"

/-- Claim C7: fetching degrades gracefully instead of raising: a missing or
None optional attribute becomes the literal sentinel N/A and the record is
still produced; a raised activities request yields the absent result None;
a raised stream fetch yields None, both uncached and through the cached
wrapper; and a channel whose parse raises is omitted while the remaining
channels are returned. -/
theorem C7_graceful_degradation :
    (∀ a : Activity, a.average_watts = none → (mkRecord a).average_watts = "N/A") ∧
    (∀ a : Activity, a.average_watts = some none → (mkRecord a).average_watts = "N/A") ∧
    (∀ (a : Activity) (rest : List Activity) (limit : Nat),
        (get_activities_data (.ok (a :: rest)) limit).isSome = true ∧
        mkRecord a ∈ (get_activities_data (.ok (a :: rest)) limit).getD []) ∧
    (∀ (e : String) (limit : Nat), get_activities_data (.error e) limit = none) ∧
    (∀ (net : Nat → StreamsFetch) (aid : Nat) (e : String),
        net aid = .raised e → get_activity_streams_uncached net aid = none) ∧
    (∀ (net : Nat → StreamsFetch) (cache : LruCache) (cl aid : Nat) (e : String),
        net aid = .raised e → lruLookup cache (cl, aid) = none →
        (get_activity_streams net cache cl aid).result = none) ∧
    (∀ (name e : String), keepParsed (name, .error e) = none) ∧
    (∀ (net : Nat → StreamsFetch) (aid : Nat) (c : String × Except String (List Int))
        (cs : List (String × Except String (List Int))),
        net aid = .ok (c :: cs) →
        get_activity_streams_uncached net aid =
          some ((c :: cs).filterMap keepParsed)) := by
  refine ⟨?_, ?_, ?_, ?_, ?_, ?_, ?_, ?_⟩
  · intro a h
    simp [mkRecord, h, optAttr]
  · intro a h
    simp [mkRecord, h, optAttr]
  · intro a rest limit
    refine ⟨rfl, ?_⟩
    simp [get_activities_data, processActivities]
  · intro e limit
    rfl
  · intro net aid e h
    simp [get_activity_streams_uncached, h]
  · intro net cache cl aid e h hc
    simp [get_activity_streams, hc, get_activity_streams_uncached, h]
  · intro name e
    rfl
  · intro net aid c cs h
    simp [get_activity_streams_uncached, h]

/-- Claim C7 witness: the theorem applied at an activity with a raising
average_watts lookup, a raised activities request, and a raised stream
fetch through the cached wrapper on an empty cache. -/
theorem C7_graceful_degradation_witness :
    (mkRecord aNoWatts).average_watts = "N/A" ∧
    get_activities_data (.error "HTTP 500") 100 = none ∧
    (get_activity_streams netRaise ⟨[]⟩ 0 999).result = none :=
  ⟨C7_graceful_degradation.1 aNoWatts rfl,
   C7_graceful_degradation.2.2.2.1 "HTTP 500" 100,
   C7_graceful_degradation.2.2.2.2.2.1 netRaise ⟨[]⟩ 0 999 "404 not found" rfl rfl⟩

/-- Looking up the key just placed at the front of the cache finds its
value. -/
theorem lruLookup_cons (k : Nat × Nat) (v : Option (List (String × List Int)))
    (l : List ((Nat × Nat) × Option (List (String × List Int)))) :
    lruLookup ⟨(k, v) :: l⟩ k = some v := by
  unfold lruLookup
  rw [List.find?_cons_of_pos _ (by simp)]
  rfl

/-- Truncating a cache that starts with an entry keeps that entry in front
as long as the capacity is positive. -/
theorem lruLookup_take_cons (k : Nat × Nat) (v : Option (List (String × List Int)))
    (l : List ((Nat × Nat) × Option (List (String × List Int)))) (n : Nat)
    (hn : 0 < n) :
    lruLookup ⟨((k, v) :: l).take n⟩ k = some v := by
  cases n with
  | zero => omega
  | succ m =>
      rw [List.take_succ_cons]
      exact lruLookup_cons k v (l.take m)

/-- After any call to the cached get_activity_streams, the key of that call
maps in the resulting cache to the value the call returned. -/
theorem streams_result_cached (net : Nat → StreamsFetch) (cache : LruCache)
    (cl aid : Nat) :
    lruLookup (get_activity_streams net cache cl aid).cache (cl, aid) =
      some (get_activity_streams net cache cl aid).result := by
  cases h : lruLookup cache (cl, aid) with
  | some v =>
      simp only [get_activity_streams, h]
      exact lruLookup_cons (cl, aid) v _
  | none =>
      simp only [get_activity_streams, h]
      exact lruLookup_take_cons (cl, aid) _ _ maxsize (by decide)

/-- A call whose key is already in the cache returns the cached value with
no network call. -/
theorem streams_hit (net : Nat → StreamsFetch) (cache : LruCache) (cl aid : Nat)
    (v : Option (List (String × List Int)))
    (h : lruLookup cache (cl, aid) = some v) :
    (get_activity_streams net cache cl aid).result = v ∧
    (get_activity_streams net cache cl aid).networkCalls = 0 := by
  simp [get_activity_streams, h]

/-- A filter that drops at least one element of a list shortens it. -/
theorem length_filter_lt_of_mem {α : Type} (p : α → Bool) :
    ∀ (l : List α) (x : α), x ∈ l → p x = false →
      (l.filter p).length < l.length := by
  intro l
  induction l with
  | nil => intro x hx; cases hx
  | cons a t ih =>
      intro x hx hpx
      rcases List.mem_cons.mp hx with rfl | hxt
      · rw [List.filter_cons_of_neg (by simp [hpx])]
        exact Nat.lt_succ_of_le (List.length_filter_le p t)
      · cases hp : p a with
        | true =>
            rw [List.filter_cons_of_pos hp]
            exact Nat.succ_lt_succ (ih x hxt hpx)
        | false =>
            rw [List.filter_cons_of_neg (by simp [hp])]
            exact Nat.lt_succ_of_lt (ih x hxt hpx)

/-- A cache hit implies the key sits in the entry list and fails the
removal filter used to refresh recency. -/
theorem lruLookup_mem (cache : LruCache) (k : Nat × Nat)
    (v : Option (List (String × List Int)))
    (h : lruLookup cache k = some v) :
    ∃ e ∈ cache.entries, (fun e => decide (¬ e.1 = k)) e = false := by
  unfold lruLookup at h
  cases hf : cache.entries.find? (fun e => e.1 = k) with
  | none => rw [hf] at h; cases h
  | some e =>
      refine ⟨e, List.mem_of_find?_eq_some hf, ?_⟩
      have := List.find?_some hf
      simp at this
      simp [this]

/-- Claim C8 counterexample: stream results are not cached by activity id
alone: after a call for activity 5 through client object 0, a second call
for the same activity 5 through a different client object 1 (as a fresh
per-request Client creates) misses the cache and makes a network call. -/
theorem C8_counterexample :
    (get_activity_streams netConst ⟨[]⟩ 0 5).networkCalls = 1 ∧
    (get_activity_streams netConst
        (get_activity_streams netConst ⟨[]⟩ 0 5).cache 1 5).networkCalls = 1 := by
  refine ⟨by decide, by decide⟩

/-- Claim C8 (amended): the stream cache is keyed by the pair (client
object, activity id) with capacity 100: a repeated call with the same
client and activity id returns the result of the first call and makes no
network call, and every call keeps the cache at no more than 100 entries;
a call for the same activity id through a different client object is a
miss. -/
theorem C8_cache_keyed_by_client_and_id :
    (∀ (net : Nat → StreamsFetch) (cache : LruCache) (cl aid : Nat),
        (get_activity_streams net
            ((get_activity_streams net cache cl aid).cache) cl aid).result =
          (get_activity_streams net cache cl aid).result ∧
        (get_activity_streams net
            ((get_activity_streams net cache cl aid).cache) cl aid).networkCalls = 0) ∧
    (∀ (net : Nat → StreamsFetch) (cache : LruCache) (cl aid : Nat),
        cache.entries.length ≤ maxsize →
        (get_activity_streams net cache cl aid).cache.entries.length ≤ maxsize) := by
  constructor
  · intro net cache cl aid
    exact streams_hit net _ cl aid _ (streams_result_cached net cache cl aid)
  · intro net cache cl aid hlen
    cases h : lruLookup cache (cl, aid) with
    | some v =>
        simp only [get_activity_streams, h, List.length_cons]
        obtain ⟨e, hmem, hpe⟩ := lruLookup_mem cache (cl, aid) v h
        have := length_filter_lt_of_mem (fun e => decide (¬ e.1 = (cl, aid)))
          cache.entries e hmem hpe
        omega
    | none =>
        simp only [get_activity_streams, h]
        exact le_trans (List.length_take_le maxsize _) (le_refl maxsize)

/-- Claim C8 witness: the amended theorem applied at a concrete repeated
call and at the empty cache. -/
theorem C8_cache_keyed_by_client_and_id_witness :
    (get_activity_streams netConst
        ((get_activity_streams netConst ⟨[]⟩ 0 5).cache) 0 5).networkCalls = 0 ∧
    (get_activity_streams netConst ⟨[]⟩ 0 5).cache.entries.length ≤ maxsize :=
  ⟨(C8_cache_keyed_by_client_and_id.1 netConst ⟨[]⟩ 0 5).2,
   C8_cache_keyed_by_client_and_id.2 netConst ⟨[]⟩ 0 5 (by decide)⟩

end StravaDash
